import Mathlib

/-!
Shallow embedding of the branching/exhaustiveness examples from
`src/index.ts` and the companion snippets (`src/unnamed/part_000`,
`src/unnamed/part_002`).

Modelling conventions:
* JavaScript `number` is idealised as `ℚ` (all inputs in the claims are
  small integers, where `+`, `*` and `/` agree with IEEE doubles; JS
  specials such as `Infinity`/`NaN` are out of scope).
* A TypeScript function that can fall off the end of a non-exhaustive
  `switch` (returning `undefined`) is embedded with an `Option` result:
  `none` is the implicit `undefined`.
* `console.log` side effects are embedded as explicit traces: a
  `List ℚ` of the logged values, in order.  A deferred effect
  (`() => console.log(...)`) is the trace of one invocation of the
  returned thunk.
* The externally declared `sendEmail`/`sendSMS` functions are embedded
  as an inductive `SendAction` recording which of them was invoked and
  with which arguments; a `throw` is embedded as `Except.error` with the
  thrown message.
-/

/-- `type Op = 'add' | 'multiply' | 'divide';` (src/index.ts line 3). -/
inductive Op where
  | add
  | multiply
  | divide
deriving DecidableEq

/-- `const run = (op: Op) => (a, b) => { switch (op) ... }`
(src/index.ts lines 5-18).  Only the `'add'` and `'multiply'` cases
exist; the commented-out `default` is absent, so for `'divide'` the
switch falls through and the arrow function returns `undefined`,
embedded as `none`. -/
def run (op : Op) (a b : ℚ) : Option ℚ :=
  match op with
  | .add => some (a + b)
  | .multiply => some (a * b)
  | .divide => none

/-- `const run2 = (op: Op) => (a, b): void => { switch (op) ... }`
(src/index.ts lines 28-42).  The result is the trace of `console.log`
calls: `[a + b]` for `'add'`, `[a * b]` for `'multiply'`, and the empty
trace for the unhandled `'divide'`, where the switch matches no case and
the function returns normally having done nothing. -/
def run2 (op : Op) (a b : ℚ) : List ℚ :=
  match op with
  | .add => [a + b]
  | .multiply => [a * b]
  | .divide => []

/-- `const run4 = (op: Op) => (a, b) => { switch (op) ... }`
(src/index.ts lines 80-88).  Each handled case returns a deferred
zero-argument effect; it is embedded as the trace produced by one
invocation of that thunk.  Note that the source's `'multiply'` branch
reads `return () => console.log(a + b);` (line 85), the same body as the
`'add'` branch; `'divide'` is unhandled, so `run4` returns `undefined`
(`none`) there. -/
def run4 (op : Op) (a b : ℚ) : Option (List ℚ) :=
  match op with
  | .add => some [a + b]
  | .multiply => some [a + b]
  | .divide => none

/-- Invoking a deferred effect `n` times concatenates `n` copies of its
single-invocation trace (the caller is free to choose any `n`,
including `0`). -/
def invokeTimes (n : Nat) (eff : List ℚ) : List ℚ :=
  (List.replicate n eff).flatten

/-- `type LogAction = { action: 'log'; value: string };`
(src/index.ts line 44). -/
structure LogAction where
  action : String
  value : String
deriving DecidableEq

/-- `const LogAction = (a: string): LogAction => ({ action: 'log', value: a });`
(src/index.ts line 45).  Lean does not allow a constructor function to
share the structure's name, so it is called `LogAction.of`. -/
def LogAction.of (a : String) : LogAction := ⟨"log", a⟩

/-- `const run5 = (op: OpPartial) => (a, b) => { switch (op) ... }`
(src/index.ts lines 103-114).  The selector type
`'add' | 'multiply' | 'divide' | (string & \x7b\x7d)` is just `String` at
runtime, so the embedded selector is `String`; the `default` case makes
the match total. -/
def run5 (op : String) (a b : ℚ) : LogAction :=
  match op with
  | "add" => LogAction.of s!"{a} + {b} = {a + b}"
  | "multiply" => LogAction.of s!"{a} * {b} = {a * b}"
  | "divide" => LogAction.of s!"{a} / {b} = {a / b}"
  | _ => LogAction.of "default"

/-- The fields of the `'email'` variant of `Notification`
(src/index.ts line 157). -/
structure EmailData where
  recipient : String
  subject : String
  body : String
deriving DecidableEq

/-- The fields of the `'sms'` variant of `Notification`
(src/index.ts line 158). -/
structure SmsData where
  phoneNumber : String
  message : String
deriving DecidableEq

/-- `type Notification = { type: 'email', ... } | { type: 'sms', ... }`
(src/index.ts lines 156-158): the well-typed discriminated union, with
the fields narrowed per variant. -/
inductive Notification where
  | email (e : EmailData)
  | sms (s : SmsData)
deriving DecidableEq

/-- The observable effect of dispatching a notification: which of the
externally declared functions `sendEmail`/`sendSMS` (src/index.ts lines
160-161) was invoked, and with which arguments. -/
inductive SendAction where
  | sendEmail (recipient subject body : String)
  | sendSMS (phoneNumber message : String)
deriving DecidableEq

/-- The shape of the `handlers` object (src/index.ts lines 163-166): one
function per discriminant, each consuming the narrowed variant. -/
structure NotificationHandlers where
  email : EmailData → SendAction
  sms : SmsData → SendAction

/-- `const handlers = { email: n => sendEmail(n.recipient, n.subject, n.body),
sms: n => sendSMS(n.phoneNumber, n.message) }` (src/index.ts lines 163-166). -/
def handlers : NotificationHandlers where
  email := fun n => .sendEmail n.recipient n.subject n.body
  sms := fun n => .sendSMS n.phoneNumber n.message

/-- `handlers[notification.type](notification)` (src/index.ts line 173):
the discriminant selects the handler, which receives the narrowed
value. -/
def dispatchHandlers : Notification → SendAction
  | .email e => handlers.email e
  | .sms s => handlers.sms s

/-- The runtime (untyped) view of a notification object: the `type` tag
is an arbitrary string, modelling values forced past the type checker by
an unchecked cast; the remaining fields are whatever the object carries. -/
structure RawNotification where
  type : String
  recipient : String
  subject : String
  body : String
  phoneNumber : String
  message : String
deriving DecidableEq

/-- `const switchNotification = (notification: Notification) => { switch
(notification.type) ... }` (src/index.ts lines 181-202), embedded over
the runtime view so that the `default` branch is reachable exactly when
the tag is out of domain.  `case 'email'` invokes `sendEmail` with the
email fields, `case 'sms'` invokes `sendSMS` with the sms fields, and the
`default` branch (whose `const _: never = notification;` is the static
device, erased at runtime) throws
`` `panic! Unknown notification type: ${(notification as any).type}` ``. -/
def switchNotification (n : RawNotification) : Except String SendAction :=
  if n.type = "email" then
    .ok (.sendEmail n.recipient n.subject n.body)
  else if n.type = "sms" then
    .ok (.sendSMS n.phoneNumber n.message)
  else
    .error ("panic! Unknown notification type: " ++ n.type)

/-- Erase a well-typed `Notification` to its runtime object view (fields
not belonging to the variant are absent in JS; embedded as `""`, which
`switchNotification` never reads on that path). -/
def Notification.toRaw : Notification → RawNotification
  | .email e => ⟨"email", e.recipient, e.subject, e.body, "", ""⟩
  | .sms s => ⟨"sms", "", "", "", s.phoneNumber, s.message⟩

/-- The closed variant set of `Notification`, by discriminant
(src/index.ts lines 156-158). -/
def notificationVariants : List String := ["email", "sms"]

/-- The discriminants handled by `switchNotification`, in case order
(src/index.ts lines 186 and 192). -/
def switchCaseOrder : List String := ["email", "sms"]

/-- The residual variant set after the first `k` cases of
`switchNotification` have been tried and not matched: the variants whose
discriminant is not among the first `k` handled cases.  This is the type
TypeScript narrows `notification.type` to between cases (the
`notification.type = 'email' | 'sms' | never` / `'sms' | never` / `never`
comments at src/index.ts lines 184, 190, 196). -/
def residualAfter (k : Nat) : List String :=
  notificationVariants.filter (fun t => !(switchCaseOrder.take k).contains t)

/-- `class Dog2 implements Animal2` (src/unnamed/part_000 lines 58-66):
stateless, with a `woof()` method. -/
structure Dog2 where
deriving DecidableEq

/-- `class Cat2 implements Animal2` (src/unnamed/part_000 lines 68-76):
stateless, with a `meow()` method. -/
structure Cat2 where
deriving DecidableEq

/-- `woof(): string { return 'woof'; }` (src/unnamed/part_000 lines 59-61). -/
def Dog2.woof (_ : Dog2) : String := "woof"

/-- `meow(): string { return 'meow'; }` (src/unnamed/part_000 lines 69-71). -/
def Cat2.meow (_ : Cat2) : String := "meow"

/-- `interface AnimalVisitor<R> { visitDog(dog: Dog2): R; visitCat(cat: Cat2): R; }`
(src/unnamed/part_000 lines 48-52). -/
structure AnimalVisitor (R : Type) where
  visitDog : Dog2 → R
  visitCat : Cat2 → R

/-- The closed set of `Animal2` implementations in the file: `Dog2` and
`Cat2` (src/unnamed/part_000).  Every value the claims quantify over is
one of these. -/
inductive Animal2 where
  | dog2 (d : Dog2)
  | cat2 (c : Cat2)
deriving DecidableEq

/-- `accept<R>(visitor: AnimalVisitor<R>): R` — `Dog2.accept` returns
`visitor.visitDog(this)` and `Cat2.accept` returns `visitor.visitCat(this)`
(src/unnamed/part_000 lines 63-65 and 73-75). -/
def Animal2.accept : Animal2 → AnimalVisitor R → R
  | .dog2 d, v => v.visitDog d
  | .cat2 c, v => v.visitCat c

/-- `class MakeSoundVisitor implements AnimalVisitor<string>`
(src/unnamed/part_000 lines 78-86): `visitDog` returns `dog.woof()`,
`visitCat` returns `cat.meow()`. -/
def MakeSoundVisitor : AnimalVisitor String where
  visitDog := fun d => d.woof
  visitCat := fun c => c.meow

/-- `class CanClimbTreesVisitor implements AnimalVisitor<boolean>`
(src/unnamed/part_000 lines 88-99): `visitDog` returns `false`,
`visitCat` returns `true`. -/
def CanClimbTreesVisitor : AnimalVisitor Bool where
  visitDog := fun _ => false
  visitCat := fun _ => true

/-- `const makeSound = (animal: Animal2): string => { if (animal
instanceof Dog2) ... else if (animal instanceof Cat2) ... throw ... }`
(src/unnamed/part_000 lines 104-112).  Over the closed `Animal2` the two
`instanceof` branches cover every value, so the trailing
`throw new Error('animal is not a dog or cat')` is unreachable and the
embedding is total. -/
def makeSound : Animal2 → String
  | .dog2 d => d.woof
  | .cat2 c => c.meow

/-- `const canClimbTrees = (animal: Animal2): boolean => ...`
(src/unnamed/part_000 lines 114-121); same shape as `makeSound`, with the
trailing throw unreachable over the closed variant set. -/
def canClimbTrees : Animal2 → Bool
  | .dog2 _ => false
  | .cat2 _ => true

theorem invokeTimes_singleton_length (n : Nat) (x : ℚ) :
    (invokeTimes n [x]).length = n := by
  induction n with
  | zero => rfl
  | succ k ih => simp [invokeTimes, List.replicate_succ] at ih ⊢

/-- Claim C1 counterexample: the claim asserts `run('divide')(6,3) = 2`,
but the `'divide'` case of `run` is unhandled (src/index.ts lines 5-18
have cases only for `'add'` and `'multiply'`), so the call returns
`undefined` (`none`), not `2`. -/
theorem run_divide_counterexample : ¬ (run Op.divide 6 3 = some 2) := by
  simp [run]

/-- Claim C1 (amended): `run('add')(2,3) = 5` and
`run('multiply')(2,3) = 6` as claimed, but `run('divide')(6,3)` returns
no value (`undefined`), because the `'divide'` discriminant has no case
in `run`. -/
theorem run_dispatch_amended :
    run Op.add 2 3 = some 5 ∧
    run Op.multiply 2 3 = some 6 ∧
    run Op.divide 6 3 = none := by
  refine ⟨?_, ?_, rfl⟩ <;> norm_num [run]

/-- Claim C2: forcing a tag that is neither `'email'` nor `'sms'` into
`switchNotification` reaches the terminal `default` branch, which throws
`panic! Unknown notification type: <tag>`; no send handler is invoked
and nothing is returned normally. -/
theorem switchNotification_unknown_tag_panics (n : RawNotification)
    (h1 : n.type ≠ "email") (h2 : n.type ≠ "sms") :
    switchNotification n =
      .error ("panic! Unknown notification type: " ++ n.type) := by
  simp [switchNotification, h1, h2]

/-- Claim C2 witness: a raw object whose tag is `'push'` makes
`switchNotification` throw the panic error. -/
theorem switchNotification_unknown_tag_panics_witness :
    switchNotification ⟨"push", "", "", "", "", ""⟩ =
      .error ("panic! Unknown notification type: " ++ "push") :=
  switchNotification_unknown_tag_panics ⟨"push", "", "", "", "", ""⟩
    (by decide) (by decide)

/-- Claim C3: dispatching any well-typed `Notification` through the
`handlers` map invokes exactly the handler matching its discriminant,
applied to that variant's narrowed fields — `sendEmail` with
recipient/subject/body for `'email'`, `sendSMS` with phoneNumber/message
for `'sms'` — and `switchNotification` on the same value invokes the very
same single handler.  The resulting `SendAction` is the complete effect
trace, so no other handler executes. -/
theorem dispatch_invokes_matching_handler (r s b p m : String) :
    dispatchHandlers (.email ⟨r, s, b⟩) = .sendEmail r s b ∧
    dispatchHandlers (.sms ⟨p, m⟩) = .sendSMS p m ∧
    switchNotification (Notification.email ⟨r, s, b⟩).toRaw =
      .ok (.sendEmail r s b) ∧
    switchNotification (Notification.sms ⟨p, m⟩).toRaw =
      .ok (.sendSMS p m) := by
  refine ⟨rfl, rfl, ?_, ?_⟩ <;> simp [switchNotification, Notification.toRaw]

/-- Claim C4: `run2` is total, and on the unhandled `'divide'`
discriminant it completes normally with an empty `console.log` trace for
every `a` and `b` — at runtime indistinguishable from a correctly
handled side-effect-only branch. -/
theorem run2_divide_no_output (a b : ℚ) : run2 Op.divide a b = [] := rfl

/-- Claim C5: for the handled discriminants `'add'` and `'multiply'`,
`run4` returns a deferred effect (`some` thunk) without logging
anything itself, and invoking the returned thunk `n` times — for any
`n`, including `0` — produces exactly `n` log outputs. -/
theorem run4_deferred_effect (op : Op) (a b : ℚ) (n : Nat)
    (h : op = .add ∨ op = .multiply) :
    (run4 op a b).map (fun eff => (invokeTimes n eff).length) = some n := by
  rcases h with h | h <;> subst h <;>
    simp [run4, invokeTimes_singleton_length]

/-- Claim C5 witness: `run4('add')(2,3)` is a deferred effect whose
three-fold invocation logs exactly three lines. -/
theorem run4_deferred_effect_witness :
    (run4 Op.add 2 3).map (fun eff => (invokeTimes 3 eff).length) =
      some 3 :=
  run4_deferred_effect Op.add 2 3 3 (Or.inl rfl)

/-- Claim C6: `run5` is total over arbitrary string selectors and never
throws — every result is a `LogAction` (`action = 'log'`): `'add'`,
`'multiply'` and `'divide'` map to the log lines describing `a + b`,
`a * b` and `a / b` respectively, and every other selector takes the
`default` case to `LogAction('default')`. -/
theorem run5_partial_catchall (op : String) (a b : ℚ) :
    (run5 op a b).action = "log" ∧
    run5 "add" a b = LogAction.of s!"{a} + {b} = {a + b}" ∧
    run5 "multiply" a b = LogAction.of s!"{a} * {b} = {a * b}" ∧
    run5 "divide" a b = LogAction.of s!"{a} / {b} = {a / b}" ∧
    (op ≠ "add" → op ≠ "multiply" → op ≠ "divide" →
      run5 op a b = LogAction.of "default") := by
  refine ⟨?_, rfl, rfl, rfl, ?_⟩
  · unfold run5
    split <;> rfl
  · intro h1 h2 h3
    unfold run5
    split <;> simp_all

/-- Claim C6 witness: the out-of-domain selector `'modulo'` lands in the
catch-all and yields `LogAction('default')` rather than throwing. -/
theorem run5_partial_catchall_witness :
    run5 "modulo" 6 3 = LogAction.of "default" :=
  (run5_partial_catchall "modulo" 6 3).2.2.2.2
    (by decide) (by decide) (by decide)

/-- Claim C7: on every animal of the closed set, the visitor
(capability-dispatch) form agrees with the tag-based form:
`accept(MakeSoundVisitor)` equals `makeSound` (`'woof'` for `Dog2`,
`'meow'` for `Cat2`) and `accept(CanClimbTreesVisitor)` equals
`canClimbTrees` (`false` for `Dog2`, `true` for `Cat2`). -/
theorem visitor_matches_tag_dispatch (a : Animal2) (d : Dog2) (c : Cat2) :
    a.accept MakeSoundVisitor = makeSound a ∧
    a.accept CanClimbTreesVisitor = canClimbTrees a ∧
    (Animal2.dog2 d).accept MakeSoundVisitor = "woof" ∧
    (Animal2.cat2 c).accept MakeSoundVisitor = "meow" ∧
    (Animal2.dog2 d).accept CanClimbTreesVisitor = false ∧
    (Animal2.cat2 c).accept CanClimbTreesVisitor = true := by
  refine ⟨?_, ?_, rfl, rfl, rfl, rfl⟩ <;> cases a <;> rfl

/-- Claim C8: in `switchNotification` the residual variant set starts as
the full set `{email, sms}`, loses exactly one member per handled case
(`{sms}` after the `'email'` case, `∅` after the `'sms'` case), and the
residual reaching the terminal `default` branch is empty if and only if
every variant of the closed set was handled. -/
theorem switchNotification_residual :
    residualAfter 0 = ["email", "sms"] ∧
    residualAfter 1 = ["sms"] ∧
    residualAfter 2 = [] ∧
    (residualAfter 0).length = (residualAfter 1).length + 1 ∧
    (residualAfter 1).length = (residualAfter 2).length + 1 ∧
    ((residualAfter switchCaseOrder.length = []) ↔
      (∀ t ∈ notificationVariants, t ∈ switchCaseOrder)) := by
  decide

/-- Claim C9: for every well-typed notification object — one whose tag
is `'email'` or `'sms'` — `switchNotification` takes a handled case and
returns normally; the defensive throw in the `default` branch is
unreachable. -/
theorem switchNotification_welltyped_no_panic (n : RawNotification)
    (h : n.type = "email" ∨ n.type = "sms") :
    (switchNotification n).isOk = true := by
  rcases h with h | h <;>
    simp [switchNotification, h, Except.isOk, Except.toBool]

/-- Claim C9 witness: a concrete well-typed `'email'` notification is
dispatched without raising. -/
theorem switchNotification_welltyped_no_panic_witness :
    (switchNotification ⟨"email", "igor@loskutoff.com", "hello",
      "world", "", ""⟩).isOk = true :=
  switchNotification_welltyped_no_panic
    ⟨"email", "igor@loskutoff.com", "hello", "world", "", ""⟩
    (Or.inl rfl)

/-- Claim C10: `run4('multiply')` is extensionally equal to
`run4('add')` — both branches return `() => console.log(a + b)` — so the
`'multiply'` effect logs the sum `a + b` for every `a` and `b`, and on
`(2,3)` it does not log the product `2 * 3`. -/
theorem run4_multiply_eq_add :
    run4 Op.multiply = run4 Op.add ∧
    (∀ a b : ℚ, run4 Op.multiply a b = some [a + b]) ∧
    run4 Op.multiply 2 3 ≠ some [2 * 3] := by
  refine ⟨rfl, fun a b => rfl, ?_⟩
  simp [run4]
  norm_num
